import Mathlib

/-!
Verification of the GoLog logging package (`src/Initialize.go`).

The package formats a timestamp+severity header, writes a log record to a
file sink and/or a terminal sink (the terminal optionally colorized with
ANSI escapes), optionally appends a bracketed key/value suffix, and exits
the process after a fatal message.

Shallow embedding conventions:
* The wall-clock time captured by `time.Now()` is a `GoTime` value passed
  explicitly to `printOutPut` (the source captures it exactly once per call,
  so one parameter models it).
* The variadic `...interface{}` arguments of `fmt.Print` / `fmt.Fprint` are
  modelled as `List GoValue`; `fmtPrint` reproduces the Go `fmt` rule that a
  space is inserted between two adjacent operands when neither is a string.
* A sink is modelled by the string of bytes written to it during the call;
  `printOutPut` returns the file string, the terminal string and whether the
  call ends with `os.Exit(1)`.
* `map[string]interface{}` iteration order is unspecified in Go, so the
  structured data is an association list whose order stands for one
  iteration order.
-/

namespace GoLog

/-- A printable Go value handed to the variadic `fmt` functions. -/
inductive GoValue where
  | str (s : String)
  | int (i : Int)
  | bool (b : Bool)
deriving DecidableEq

/-- Whether the dynamic type of the value is `string` (the `fmt` package
inserts a space between adjacent operands only when neither is a string). -/
def GoValue.isString : GoValue → Bool
  | .str _ => true
  | _ => false

/-- Default `fmt` rendering of a value: strings verbatim, integers in
decimal (`strconv`-style), booleans as `true` / `false`. -/
def goString : GoValue → String
  | .str s => s
  | .int i => Int.repr i
  | .bool b => if b then "true" else "false"

/-- Output of one `fmt.Print` / `fmt.Fprint` call on a list of operands:
operands are concatenated, with a space between two adjacent operands when
neither is a string. -/
def fmtPrint : List GoValue → String
  | [] => ""
  | [a] => goString a
  | a :: b :: rest =>
      goString a ++ (if a.isString || b.isString then "" else " ") ++
        fmtPrint (b :: rest)

/-- ANSI escape sequence resetting the text color to the default. -/
def ColorDefault : String := "\x1b[0;0m"

/-- ANSI escape sequence setting the text color to red. -/
def ColorRed : String := "\x1b[31;1m"

/-- ANSI escape sequence setting the text color to yellow. -/
def ColorYellow : String := "\x1b[33;1m"

/-- Normal message identifier. -/
def MessageNormal : String := " [ INFO ] "

/-- Fatal error message identifier. -/
def MessageFatal : String := " [ ERRO ] "

/-- Warning message identifier. -/
def MessageWarning : String := " [ WARN ] "

/-- The open file handle produced by `os.Create` (abstracted to a
descriptor). -/
structure FileHandle where
  fd : Nat
deriving DecidableEq

/-- Outcome of `os.Create`: either an open handle or an error value. -/
inductive CreateResult where
  | ok (fd : FileHandle)
  | err (msg : String)
deriving DecidableEq

/-- A LogInstance holds the file the log will be written to. -/
structure LogInstance where
  logDestination : FileHandle
deriving DecidableEq

/-- `Initialize` opens the destination file and wraps it; it returns the
nil instance (`none`) when the open fails. The `os.Create` outcome is the
explicit argument. -/
def Initialize (createResult : CreateResult) : Option LogInstance :=
  match createResult with
  | .err _ => none
  | .ok fileDescriptor => some ⟨fileDescriptor⟩

/-- Wall-clock time as captured by `time.Now()`, with the fields the
logger reads: the calendar fields used by `Format "2006-01-02 15:04:05"`
and the nanosecond-of-second component returned by `Nanosecond()`. -/
structure GoTime where
  year : Nat
  month : Nat
  day : Nat
  hour : Nat
  minute : Nat
  second : Nat
  nanosecond : Nat
deriving DecidableEq

/-- `strconv.Itoa` on a non-negative int: decimal digits. -/
def Itoa (n : Nat) : String := Nat.repr n

/-- Two-digit zero padding used by the `01 02 15 04 05` layout fields. -/
def pad2 (n : Nat) : String :=
  if n < 10 then "0" ++ Itoa n else Itoa n

/-- Four-digit zero padding used by the `2006` layout field. -/
def pad4 (n : Nat) : String :=
  if n < 10 then "000" ++ Itoa n
  else if n < 100 then "00" ++ Itoa n
  else if n < 1000 then "0" ++ Itoa n
  else Itoa n

/-- `getTime.Format "2006-01-02 15:04:05"`: zero-padded 24-hour calendar
time. -/
def generateLongTime (t : GoTime) : String :=
  pad4 t.year ++ "-" ++ pad2 t.month ++ "-" ++ pad2 t.day ++ " " ++
    pad2 t.hour ++ ":" ++ pad2 t.minute ++ ":" ++ pad2 t.second

/-- The `generatedTime` local of `printOutPut`: long time, `:`, the
millisecond value `Nanosecond() / 1e6` (integer division), `:`, the full
nanosecond value. -/
def generatedTime (t : GoTime) : String :=
  generateLongTime t ++ ":" ++ Itoa (t.nanosecond / 1000000) ++ ":" ++
    Itoa t.nanosecond

/-- The `messagePrefix` local of `printOutPut`: generated time followed by
the message-type tag. -/
def messageHeader (t : GoTime) (messageType : String) : String :=
  generatedTime t ++ messageType

/-- One `(key: value)` fragment of `generateJSON`, as written by
`fmt.Fprint(w, " (", jsonKey, ": ", jsonValue, ")")` (every adjacency
involves a string operand, so no spaces are inserted). -/
def jsonEntry (p : String × GoValue) : String :=
  " (" ++ p.1 ++ ": " ++ goString p.2 ++ ")"

/-- The `for jsonKey, jsonValue := range jsonData` loop of `generateJSON`,
writing one fragment per entry to a single sink. -/
def jsonEntries : List (String × GoValue) → String
  | [] => ""
  | p :: rest => jsonEntry p ++ jsonEntries rest

/-- Everything `generateJSON` writes to one enabled sink: ` [`, the entry
fragments, ` ]`. -/
def renderJSONStr (jsonData : List (String × GoValue)) : String :=
  " [" ++ jsonEntries jsonData ++ " ]"

/-- `generateJSON`: writes the bracketed key/value suffix to the file sink
and/or terminal sink according to the two flags; the result is the pair
(string written to the file, string written to the terminal). -/
def generateJSON (needFileOutPut needTerminalOutput : Bool)
    (jsonData : List (String × GoValue)) : String × String :=
  ((if needFileOutPut then renderJSONStr jsonData else ""),
   (if needTerminalOutput then renderJSONStr jsonData else ""))

/-- What the `if jsonContent != nil` guard plus `generateJSON(true, false, ...)`
contribute to the file sink. -/
def jsonFileStr : Option (List (String × GoValue)) → String
  | none => ""
  | some d => (generateJSON true false d).1

/-- What the `if jsonContent != nil` guard plus `generateJSON(false, true, ...)`
contribute to the terminal sink. -/
def jsonTermStr : Option (List (String × GoValue)) → String
  | none => ""
  | some d => (generateJSON false true d).2

/-- The `switch messageType` of the colored branch: its zero-value default
is the empty string when no case matches. -/
def colorSwitch (messageType : String) : String :=
  if messageType = MessageNormal then ColorDefault
  else if messageType = MessageFatal then ColorRed
  else if messageType = MessageWarning then ColorYellow
  else ""

/-- Result of one `printOutPut` call: the bytes written to the file, the
bytes written to the terminal, and whether the call ends in `os.Exit(1)`. -/
structure EmitResult where
  fileOut : String
  termOut : String
  exits : Bool
deriving DecidableEq

/-- `printOutPut`: builds the header once from the captured time, then
writes to the file sink when `needFileOutput`, to the terminal sink when
`needTerminalOutput` (colored or not), and exits when the message type is
`MessageFatal`. -/
def printOutPut (t : GoTime) (needFileOutput needTerminalOutput : Bool)
    (needTerminalColoredOutput : Bool) (messageType : String)
    (jsonContent : Option (List (String × GoValue)))
    (messageContent : List GoValue) : EmitResult :=
  let msgHeader := messageHeader t messageType
  let fileOut :=
    if needFileOutput then
      msgHeader ++ fmtPrint messageContent ++ jsonFileStr jsonContent ++ "\n"
    else ""
  let termOut :=
    if needTerminalOutput && needTerminalColoredOutput then
      colorSwitch messageType ++ msgHeader ++ fmtPrint messageContent ++
        jsonTermStr jsonContent ++ ColorDefault ++ "\n"
    else if needTerminalOutput then
      msgHeader ++ fmtPrint messageContent ++ jsonTermStr jsonContent ++ "\n"
    else ""
  { fileOut := fileOut, termOut := termOut,
    exits := messageType == MessageFatal }

/-- Severity levels of the specification, naming the three message-type
constants. -/
inductive Severity where
  | Normal
  | Warning
  | Fatal
deriving DecidableEq

/-- The message-type tag of a severity. -/
def tag : Severity → String
  | .Normal => MessageNormal
  | .Fatal => MessageFatal
  | .Warning => MessageWarning

/-- The terminal color of a severity in colored mode. -/
def colorOf : Severity → String
  | .Normal => ColorDefault
  | .Fatal => ColorRed
  | .Warning => ColorYellow

/-- Spec-side formula for the record header, built from the claim's words
(`format(T) + ":" + millis + ":" + nanos + tag(S)`) for comparison with the
header the source builds. -/
def specHeaderFormula (t : GoTime) (sev : Severity) : String :=
  generateLongTime t ++ ":" ++ Itoa (t.nanosecond / 1000000) ++ ":" ++
    Itoa t.nanosecond ++ tag sev

/-- Concatenation of a list of strings, for stating the per-entry shape of
the structured-data rendering. -/
def strJoin : List String → String
  | [] => ""
  | s :: rest => s ++ strJoin rest

/-- A character is plain when it is neither a newline nor the ESC byte
that starts every ANSI escape sequence. -/
def okChar (c : Char) : Bool := !(c == '\n') && !(c == '\x1b')

/-- A string is plain when all of its characters are. -/
def okStr (s : String) : Bool := s.data.all okChar

/-- `seq` occurs contiguously somewhere inside `l`. -/
def hasSeq (seq l : List Char) : Prop := ∃ u v, l = u ++ (seq ++ v)

/-- A fixed sample capture time used to evaluate the model on concrete
inputs: 2023-01-02 03:04:05, 6007008 nanoseconds into the second. -/
def sampleTime : GoTime := ⟨2023, 1, 2, 3, 4, 5, 6007008⟩

end GoLog

namespace GoLog

/-! ### Helper lemmas -/

theorem string_eq_of_data {a b : String} (h : a.data = b.data) : a = b := by
  cases a
  cases b
  exact congrArg String.mk h

theorem data_empty : ("" : String).data = [] := rfl

theorem okChar_digitChar (n : Nat) : okChar (Nat.digitChar n) = true := by
  rcases Nat.lt_or_ge n 16 with h | h
  · interval_cases n <;> decide
  · rw [Nat.digitChar]
    repeat rw [if_neg (by omega)]
    decide

theorem toDigitsCore_ok (f : Nat) : ∀ (n : Nat) (ds : List Char),
    (∀ c ∈ ds, okChar c = true) →
    ∀ c ∈ Nat.toDigitsCore 10 f n ds, okChar c = true := by
  induction f with
  | zero =>
    intro n ds hds
    simpa [Nat.toDigitsCore] using hds
  | succ f ih =>
    intro n ds hds c hc
    simp only [Nat.toDigitsCore] at hc
    by_cases h : n / 10 = 0
    · rw [if_pos h] at hc
      rcases List.mem_cons.mp hc with rfl | hmem
      · exact okChar_digitChar _
      · exact hds _ hmem
    · rw [if_neg h] at hc
      refine ih _ _ ?_ c hc
      intro d hd
      rcases List.mem_cons.mp hd with rfl | hmem
      · exact okChar_digitChar _
      · exact hds _ hmem

theorem Itoa_ok (n : Nat) : okStr (Itoa n) = true := by
  rw [okStr, List.all_eq_true]
  have hdata : (Itoa n).data = Nat.toDigitsCore 10 (n + 1) n [] := rfl
  rw [hdata]
  exact toDigitsCore_ok (n + 1) n [] (by intro c hmem; cases hmem)

theorem okStr_append {a b : String} (ha : okStr a = true) (hb : okStr b = true) :
    okStr (a ++ b) = true := by
  rw [okStr, String.data_append, List.all_append]
  rw [okStr] at ha hb
  rw [ha, hb]
  rfl

theorem pad2_ok (n : Nat) : okStr (pad2 n) = true := by
  unfold pad2
  split
  · exact okStr_append (by decide) (Itoa_ok n)
  · exact Itoa_ok n

theorem pad4_ok (n : Nat) : okStr (pad4 n) = true := by
  unfold pad4
  repeat' split
  all_goals first
    | exact okStr_append (by decide) (Itoa_ok n)
    | exact Itoa_ok n

theorem generateLongTime_ok (t : GoTime) : okStr (generateLongTime t) = true := by
  unfold generateLongTime
  repeat' apply okStr_append
  all_goals first
    | exact pad4_ok _
    | exact pad2_ok _
    | decide

theorem generatedTime_ok (t : GoTime) : okStr (generatedTime t) = true := by
  unfold generatedTime
  exact okStr_append (okStr_append (okStr_append (okStr_append
    (generateLongTime_ok t) (by decide)) (Itoa_ok _)) (by decide)) (Itoa_ok _)

theorem messageHeader_ok (t : GoTime) (mt : String) (hmt : okStr mt = true) :
    okStr (messageHeader t mt) = true :=
  okStr_append (generatedTime_ok t) hmt

theorem tag_ok (sev : Severity) : okStr (tag sev) = true := by
  cases sev <;> decide

theorem okStr_not_mem {s : String} {c : Char} (h : okStr s = true)
    (hc : okChar c = false) : c ∉ s.data := by
  intro hmem
  have := List.all_eq_true.mp h c hmem
  rw [this] at hc
  cases hc

theorem not_hasSeq {c : Char} {seq l : List Char} (hc : c ∈ seq) (hl : c ∉ l) :
    ¬ hasSeq seq l := by
  rintro ⟨u, v, rfl⟩
  exact hl (List.mem_append.mpr (Or.inr (List.mem_append.mpr (Or.inl hc))))

theorem jsonEntries_eq_strJoin (d : List (String × GoValue)) :
    jsonEntries d = strJoin (d.map jsonEntry) := by
  induction d with
  | nil => rfl
  | cons p rest ih => simp [jsonEntries, strJoin, ih]

end GoLog

namespace GoLog

/-! ### Claim theorems -/

/-- Claim C1, counterexample: with message parts `"a", 1, true` written to
the file sink, the line body after the header is NOT the separator-free
concatenation `a1true` + newline — `fmt.Fprint` inserts a space between
the operands `1` and `true` because neither is a string. -/
theorem claim_C1_counterexample :
    (printOutPut sampleTime true false false MessageNormal none
        [GoValue.str "a", GoValue.int 1, GoValue.bool true]).fileOut
      ≠ messageHeader sampleTime MessageNormal ++ "a1true" ++ "\n" := by
  decide

/-- Claim C1, amended: an emission with `toFile=true, toTerminal=false` and
parts `"a", 1, true` appends exactly one newline-terminated line to the
file; after the header the body is `a1 true` + newline (a space separates
two adjacent parts when neither is a string), and the terminal gets
nothing. -/
theorem claim_C1 (t : GoTime) (sev : Severity) :
    (printOutPut t true false false (tag sev) none
        [GoValue.str "a", GoValue.int 1, GoValue.bool true]).fileOut
      = messageHeader t (tag sev) ++ "a1 true" ++ "\n"
    ∧ (printOutPut t true false false (tag sev) none
        [GoValue.str "a", GoValue.int 1, GoValue.bool true]).fileOut.data.count '\n'
      = 1
    ∧ (printOutPut t true false false (tag sev) none
        [GoValue.str "a", GoValue.int 1, GoValue.bool true]).termOut = "" := by
  have hf : fmtPrint [GoValue.str "a", GoValue.int 1, GoValue.bool true]
      = "a1 true" := by decide
  have hmain : (printOutPut t true false false (tag sev) none
      [GoValue.str "a", GoValue.int 1, GoValue.bool true]).fileOut
      = messageHeader t (tag sev) ++ "a1 true" ++ "\n" := by
    apply string_eq_of_data
    simp [printOutPut, hf, jsonFileStr, data_empty, String.data_append]
  refine ⟨hmain, ?_, rfl⟩
  rw [hmain]
  have hnl : '\n' ∉ (messageHeader t (tag sev)).data :=
    okStr_not_mem (messageHeader_ok t _ (tag_ok sev)) (by decide)
  rw [String.data_append, String.data_append, List.count_append,
    List.count_append, List.count_eq_zero.mpr hnl]
  decide

/-- Claim C2 (confirmed): the header built by an emission is the long time
format, `:`, the millisecond value `nanosecond / 1e6`, `:`, the full
nanosecond value, followed by the severity tag, with the three tag
literals as stated. -/
theorem claim_C2 (t : GoTime) (sev : Severity) :
    messageHeader t (tag sev) = specHeaderFormula t sev
    ∧ (printOutPut t true false false (tag sev) none []).fileOut
        = specHeaderFormula t sev ++ "\n"
    ∧ tag Severity.Normal = " [ INFO ] "
    ∧ tag Severity.Fatal = " [ ERRO ] "
    ∧ tag Severity.Warning = " [ WARN ] " := by
  have h1 : messageHeader t (tag sev) = specHeaderFormula t sev := by
    apply string_eq_of_data
    simp [messageHeader, generatedTime, specHeaderFormula,
      String.data_append, List.append_assoc]
  refine ⟨h1, ?_, rfl, rfl, rfl⟩
  apply string_eq_of_data
  simp [printOutPut, fmtPrint, jsonFileStr, data_empty, String.data_append, h1]

/-- Claim C3 (confirmed): an emission whose message type is `MessageFatal`
ends in `os.Exit(1)` for every combination of the sink and color flags,
including both sink flags false. -/
theorem claim_C3 (t : GoTime) (tf tt c : Bool)
    (json : Option (List (String × GoValue))) (parts : List GoValue) :
    (printOutPut t tf tt c MessageFatal json parts).exits = true := rfl

/-- Claim C4 (confirmed): with `toTerminal=true, colored=true` the terminal
receives exactly the severity's color code, the header, the parts, the
structured-data suffix, the reset code and a newline, with the stated
color mapping. -/
theorem claim_C4 (t : GoTime) (tf : Bool) (sev : Severity)
    (json : Option (List (String × GoValue))) (parts : List GoValue) :
    (printOutPut t tf true true (tag sev) json parts).termOut
      = colorOf sev ++ messageHeader t (tag sev) ++ fmtPrint parts ++
        jsonTermStr json ++ ColorDefault ++ "\n"
    ∧ colorOf Severity.Normal = "\x1b[0;0m"
    ∧ colorOf Severity.Fatal = "\x1b[31;1m"
    ∧ colorOf Severity.Warning = "\x1b[33;1m" := by
  have hc : colorSwitch (tag sev) = colorOf sev := by cases sev <;> decide
  refine ⟨?_, rfl, rfl, rfl⟩
  simp [printOutPut, hc]

/-- Claim C5 (confirmed): with `toTerminal=true, colored=false`, for every
severity, the terminal bytes contain none of the three ANSI escape
sequences, provided the rendered parts and structured data contain no ESC
character. -/
theorem claim_C5 (t : GoTime) (tf : Bool) (sev : Severity)
    (json : Option (List (String × GoValue))) (parts : List GoValue)
    (hp : '\x1b' ∉ (fmtPrint parts).data)
    (hj : '\x1b' ∉ (jsonTermStr json).data) :
    ¬ hasSeq ColorDefault.data
        (printOutPut t tf true false (tag sev) json parts).termOut.data
    ∧ ¬ hasSeq ColorRed.data
        (printOutPut t tf true false (tag sev) json parts).termOut.data
    ∧ ¬ hasSeq ColorYellow.data
        (printOutPut t tf true false (tag sev) json parts).termOut.data := by
  have hterm : (printOutPut t tf true false (tag sev) json parts).termOut
      = messageHeader t (tag sev) ++ fmtPrint parts ++ jsonTermStr json ++ "\n" := by
    simp [printOutPut]
  have hesc : '\x1b'
      ∉ (printOutPut t tf true false (tag sev) json parts).termOut.data := by
    rw [hterm]
    intro hmem
    simp only [String.data_append, List.mem_append] at hmem
    rcases hmem with ((h | h) | h) | h
    · exact okStr_not_mem (messageHeader_ok t _ (tag_ok sev)) (by decide) h
    · exact hp h
    · exact hj h
    · exact absurd h (by decide)
  exact ⟨not_hasSeq (by decide) hesc, not_hasSeq (by decide) hesc,
    not_hasSeq (by decide) hesc⟩

/-- Witness for claim C5 at a concrete emission. -/
theorem claim_C5_witness :
    ('\x1b' ∉ (fmtPrint [GoValue.str "a"]).data)
    ∧ ('\x1b' ∉ (jsonTermStr (some [("x", GoValue.int 1)])).data)
    ∧ (¬ hasSeq ColorDefault.data
          (printOutPut sampleTime true true false (tag Severity.Normal)
            (some [("x", GoValue.int 1)]) [GoValue.str "a"]).termOut.data
       ∧ ¬ hasSeq ColorRed.data
          (printOutPut sampleTime true true false (tag Severity.Normal)
            (some [("x", GoValue.int 1)]) [GoValue.str "a"]).termOut.data
       ∧ ¬ hasSeq ColorYellow.data
          (printOutPut sampleTime true true false (tag Severity.Normal)
            (some [("x", GoValue.int 1)]) [GoValue.str "a"]).termOut.data) :=
  ⟨by decide, by decide,
   claim_C5 sampleTime true Severity.Normal (some [("x", GoValue.int 1)])
     [GoValue.str "a"] (by decide) (by decide)⟩

/-- Claim C6 (confirmed): the structured-data rendering of the empty map is
` [ ]`, of the singleton `x ↦ 1` it is ` [ (x: 1) ]`, and in general it is
the ` [` ... ` ]` wrapper around one ` (key: value)` fragment per entry in
iteration order. -/
theorem claim_C6 :
    renderJSONStr [] = " [ ]"
    ∧ renderJSONStr [("x", GoValue.int 1)] = " [ (x: 1) ]"
    ∧ ∀ d : List (String × GoValue),
        renderJSONStr d = " [" ++ strJoin (d.map jsonEntry) ++ " ]" := by
  refine ⟨by decide, by decide, ?_⟩
  intro d
  simp [renderJSONStr, jsonEntries_eq_strJoin]

/-- Claim C7 (confirmed): `Initialize` yields an instance exactly when the
file open succeeds, and the instance wraps the opened handle; on failure
the caller gets the nil signal. -/
theorem claim_C7 (r : CreateResult) :
    ((Initialize r).isSome ↔ ∃ fd, r = CreateResult.ok fd)
    ∧ (∀ fd, Initialize (CreateResult.ok fd) = some ⟨fd⟩)
    ∧ (∀ e, Initialize (CreateResult.err e) = none) := by
  refine ⟨?_, fun _ => rfl, fun _ => rfl⟩
  cases r with
  | ok fd => simp [Initialize]
  | err e => simp [Initialize]

/-- Claim C8 (confirmed): the captured time is a single value per call, and
with both sinks active each sink's bytes start (after the optional color
code on the terminal) with the identical header built from that one time. -/
theorem claim_C8 (t : GoTime) (c : Bool) (mt : String)
    (json : Option (List (String × GoValue))) (parts : List GoValue) :
    ∃ restFile restTerm,
      (printOutPut t true true c mt json parts).fileOut
        = messageHeader t mt ++ restFile
      ∧ (printOutPut t true true c mt json parts).termOut
        = (if c then colorSwitch mt else "") ++ messageHeader t mt ++ restTerm := by
  refine ⟨fmtPrint parts ++ jsonFileStr json ++ "\n",
    fmtPrint parts ++ jsonTermStr json ++ (if c then ColorDefault ++ "\n" else "\n"),
    ?_, ?_⟩
  · apply string_eq_of_data
    simp [printOutPut, String.data_append, List.append_assoc]
  · cases c
    · apply string_eq_of_data
      simp [printOutPut, data_empty, String.data_append, List.append_assoc]
    · apply string_eq_of_data
      simp [printOutPut, String.data_append, List.append_assoc]

/-- Claim C9 (confirmed): a colored terminal emission with a message type
outside the three defined tags writes no color code before the header (the
switch's zero value is the empty string) but still writes the reset code
before the final newline. -/
theorem claim_C9 (t : GoTime) (tf : Bool) (mt : String)
    (json : Option (List (String × GoValue))) (parts : List GoValue)
    (h1 : mt ≠ MessageNormal) (h2 : mt ≠ MessageFatal) (h3 : mt ≠ MessageWarning) :
    colorSwitch mt = ""
    ∧ (printOutPut t tf true true mt json parts).termOut
        = messageHeader t mt ++ fmtPrint parts ++ jsonTermStr json ++
          ColorDefault ++ "\n" := by
  have hc : colorSwitch mt = "" := by
    simp [colorSwitch, h1, h2, h3]
  refine ⟨hc, ?_⟩
  apply string_eq_of_data
  simp [printOutPut, hc, data_empty, String.data_append]

/-- Witness for claim C9 with the undefined message type `FOOBAR`. -/
theorem claim_C9_witness :
    ("FOOBAR" ≠ MessageNormal) ∧ ("FOOBAR" ≠ MessageFatal)
    ∧ ("FOOBAR" ≠ MessageWarning)
    ∧ (colorSwitch "FOOBAR" = ""
       ∧ (printOutPut sampleTime true true true "FOOBAR" none []).termOut
           = messageHeader sampleTime "FOOBAR" ++ fmtPrint [] ++
             jsonTermStr none ++ ColorDefault ++ "\n") :=
  ⟨by decide, by decide, by decide,
   claim_C9 sampleTime true "FOOBAR" none [] (by decide) (by decide) (by decide)⟩

/-- Claim C10 (confirmed): with `toFile=false` nothing is written to the
destination file, whatever the other arguments are. -/
theorem claim_C10 (t : GoTime) (tt c : Bool) (mt : String)
    (json : Option (List (String × GoValue))) (parts : List GoValue) :
    (printOutPut t false tt c mt json parts).fileOut = "" := rfl

end GoLog
